import Mathlib

/-!
Verification development for the WCMA car-classing calculator.

The JavaScript sources embedded here are
`wcma-calculator/js/calculator.js` (base ratio, weight factor, class
determination, the main `updateCalculations` orchestrator with its
bounded fixed-point loop) and `wcma-calculator/js/modifiers.js`
(the seven modifier tables, `getClassIndex`, `getModifierValue`).

JavaScript numbers are modelled as rationals; every constant appearing
in the code (band edges, factors, table cells) is an exactly
representable decimal, and all claims under scrutiny evaluate the code
far from any double-rounding boundary, so the rational model is
faithful there.  Where a claim speaks about non-finite JS numbers, an
explicit extended type `JSNum` with IEEE comparison behaviour is used.
-/

namespace Wcma

unseal Rat.mul Rat.inv Rat.add Rat.sub

/-- Math.round of JavaScript: round to the nearest integer, ties toward
positive infinity, i.e. the floor of `x + 1/2`. -/
def jsRound (x : ℚ) : ℤ := ⌊x + 1 / 2⌋

/-- Embedding of `calculateWeightFactor(weight, targetClass)` from
`calculator.js` lines 24-88.  The JS guard `!weight || weight <= 0 ||
!targetClass` is `weight ≤ 0 ∨ targetClass = ""` on rationals and
strings; the `switch` with fall-through case labels becomes the two
disjunctive class tests, each followed by the verbatim if/else chain. -/
def calculateWeightFactor (weight : ℚ) (targetClass : String) : ℚ :=
  if weight ≤ 0 ∨ targetClass = "" then 0
  else if targetClass = "GTU" ∨ targetClass = "GT1" ∨ targetClass = "GT2" ∨
      targetClass = "GT3" ∨ targetClass = "GT4" then
    if weight < 2200 then -(3/10)
    else if weight < 2600 then -(2/10)
    else if weight < 3000 then -(1/10)
    else if 4050 < weight then (7/10)
    else if 3900 < weight then (6/10)
    else if 3750 < weight then (5/10)
    else if 3600 < weight then (4/10)
    else if 3500 < weight then (3/10)
    else if 3400 < weight then (2/10)
    else if 3300 < weight then (1/10)
    else 0
  else if targetClass = "IT1" ∨ targetClass = "IT2" then
    if weight < 2150 then -(6/10)
    else if weight < 2250 then -(5/10)
    else if weight < 2450 then -(4/10)
    else if weight < 2550 then -(3/10)
    else if weight < 2650 then -(2/10)
    else if weight < 2850 then -(1/10)
    else if 3600 < weight then (4/10)
    else if 3500 < weight then (3/10)
    else if 3400 < weight then (2/10)
    else if 3300 < weight then (1/10)
    else 0
  else 0

/-- Embedding of `calculateBaseRatio(weight, hp)` from `calculator.js`
lines 96-101: `Math.round((weight / hp) * 100) / 100` behind the guard
`!weight || weight <= 0 || !hp || hp <= 0`. -/
def calculateBaseRatio (weight hp : ℚ) : ℚ :=
  if weight ≤ 0 ∨ hp ≤ 0 then 0
  else (jsRound (weight / hp * 100) : ℚ) / 100

/-- Embedding of `determineClass(ratio)` from `calculator.js` lines
143-163, restricted to finite JS numbers.  The JS guard `!ratio ||
ratio <= 0` collapses to `ratio ≤ 0` on rationals. -/
def determineClass (ratio : ℚ) : String :=
  if ratio ≤ 0 then ""
  else if ratio < 6 then "GTU"
  else if 6 ≤ ratio ∧ ratio < 8 then "GT1"
  else if 8 ≤ ratio ∧ ratio < 10 then "GT2"
  else if 10 ≤ ratio ∧ ratio < 12 then "GT3"
  else if 12 ≤ ratio ∧ ratio < 14 then "GT4"
  else if 14 ≤ ratio ∧ ratio < 18 then "IT1"
  else "IT2"

/-- JavaScript number values relevant to `determineClass`: finite
doubles are modelled as rationals, and the three non-finite values are
explicit constructors. -/
inductive JSNum where
  | num (q : ℚ)
  | posInf
  | negInf
  | nan
deriving DecidableEq

/-- JS `x < c` for a possibly non-finite `x` and finite constant `c`:
NaN compares false, `-Infinity < c` is true, `Infinity < c` is false. -/
def JSNum.jlt : JSNum → ℚ → Bool
  | .num q, c => decide (q < c)
  | .posInf, _ => false
  | .negInf, _ => true
  | .nan, _ => false

/-- JS `x >= c` for a possibly non-finite `x` and finite constant `c`. -/
def JSNum.jge : JSNum → ℚ → Bool
  | .num q, c => decide (c ≤ q)
  | .posInf, _ => true
  | .negInf, _ => false
  | .nan, _ => false

/-- JS `x <= 0` for a possibly non-finite `x`. -/
def JSNum.jle0 : JSNum → Bool
  | .num q => decide (q ≤ 0)
  | .posInf => false
  | .negInf => true
  | .nan => false

/-- JS truthiness test `!x` for a number: `0` and `NaN` are falsy. -/
def JSNum.falsy : JSNum → Bool
  | .num q => decide (q = 0)
  | .posInf => false
  | .negInf => false
  | .nan => true

/-- Embedding of `determineClass(ratio)` from `calculator.js` lines
143-163 over all JS number values, non-finite ones included, with the
if/else chain transcribed condition by condition. -/
def determineClassJS (ratio : JSNum) : String :=
  if ratio.falsy || ratio.jle0 then ""
  else if ratio.jlt 6 then "GTU"
  else if ratio.jge 6 && ratio.jlt 8 then "GT1"
  else if ratio.jge 8 && ratio.jlt 10 then "GT2"
  else if ratio.jge 10 && ratio.jlt 12 then "GT3"
  else if ratio.jge 12 && ratio.jlt 14 then "GT4"
  else if ratio.jge 14 && ratio.jlt 18 then "IT1"
  else "IT2"

/-- One row of a modifier table from `modifiers.js`: the JS array
`[id, description, vGTU, vGT1, vGT2, vGT3, vGT4, vIT1, vIT2]` becomes
an id, a description, and the seven class-indexed cells (JS array
positions 2 through 8 are `vals` positions 0 through 6). -/
structure ModifierRow where
  id : String
  desc : String
  vals : List ℚ
deriving DecidableEq

/-- Row constructor mirroring the JS literal layout. -/
def mkRow (id desc : String) (a b c d e f g : ℚ) : ModifierRow :=
  ⟨id, desc, [a, b, c, d, e, f, g]⟩

/-- chassisModifierTable from `modifiers.js`. -/
def chassisModifierTable : List ModifierRow :=
  [ mkRow "chassis1" "Sports Racer, Prototypes, Monocoque race cars (GTU,GT1,GT2)"
      (-(25/10)) (-(25/10)) (-(34/10)) 99 99 99 99,
    mkRow "chassis2" "Non-Production Vehicle (excluding GT4,IT1,IT2)"
      (-(4/10)) (-(4/10)) (-(4/10)) (-(4/10)) 99 99 99,
    mkRow "chassis3" "Roll cage bars that penetrate the front firewall/bulkhead (IT1,IT2 only)"
      99 99 99 99 99 (4/10) (4/10),
    mkRow "chassis4" "Not applicable" 0 0 0 0 0 0 0 ]

/-- bodyModifierTable from `modifiers.js`. -/
def bodyModifierTable : List ModifierRow :=
  [ mkRow "body1" "Modification of OEM roof line, shape, or windshield/frame removal"
      (-(3/10)) (-(3/10)) (-(3/10)) (-(3/10)) (-(3/10)) (-(3/10)) (-(3/10)),
    mkRow "body2" "Modification of floor pan for exhaust clearance only and/or the rocker panel for side exiting exhaust"
      (-(2/10)) (-(2/10)) (-(2/10)) (-(2/10)) (-(2/10)) (-(2/10)) (-(2/10)),
    mkRow "body3" "Factory stock aero option (GT3,GT4,IT1,IT2 only)"
      99 99 99 (4/10) (4/10) (4/10) (4/10),
    mkRow "body4" "IT1 only Front splitter" 99 99 99 99 99 (-(5/10)) 99,
    mkRow "body5" "IT2 only Single rear wing or spoiler" 99 99 99 99 99 99 (-(10/10)),
    mkRow "body6" "Not applicable" 0 0 0 0 0 0 0 ]

/-- transModifierTable from `modifiers.js`. -/
def transModifierTable : List ModifierRow :=
  [ mkRow "trans1" "Stock to vehicle auto/semi-automatic gearbox (IT1/IT2)"
      99 99 99 99 99 (-(3/10)) (-(3/10)),
    mkRow "trans2" "Modified or swapped OEM sourced auto/sequential/semi-auto gearbox"
      (-(2/10)) (-(2/10)) (-(5/10)) (-(5/10)) (-(5/10)) 99 99,
    mkRow "trans3" "Purpose built racing gearbox"
      (-(10/10)) (-(10/10)) (-(10/10)) (-(10/10)) (-(10/10)) 99 99,
    mkRow "trans4" "Sequential/semi-auto/dog-ring (GTU,GT1,GT2,GT3,GT4)"
      (-(2/10)) (-(2/10)) (-(2/10)) (-(2/10)) (-(2/10)) 99 99,
    mkRow "trans5" "Not Applicable/standard gearbox" 0 0 0 0 0 0 0 ]

/-- dtModifierTable from `modifiers.js`. -/
def dtModifierTable : List ModifierRow :=
  [ mkRow "dt1" "All wheel drive" (-(5/10)) (-(5/10)) (-(5/10)) (-(5/10)) (-(5/10)) (-(5/10)) (-(5/10)),
    mkRow "dt2" "Front wheel drive" (6/10) (6/10) (6/10) (6/10) (6/10) (6/10) (6/10),
    mkRow "dt3" "MR/RR (IT1,IT2)" 99 99 99 99 99 (-(4/10)) (-(4/10)),
    mkRow "dt4" "Rear wheel drive" (0/10) (0/10) (0/10) (0/10) (0/10) (0/10) (0/10) ]

/-- tireModifierTable from `modifiers.js`. -/
def tireModifierTable : List ModifierRow :=
  [ mkRow "tire1" "DOT-approved, Section Width 267mm to 282mm, UTQG Treadwear rating 100 or greater"
      (6/10) (6/10) (6/10) (6/10) (6/10) (5/10) (5/10),
    mkRow "tire2" "DOT-approved, Section Width 267mm to 282mm, UTQG Treadwear rating 41 to 99"
      (3/10) (3/10) (3/10) (3/10) (3/10) (0/10) (0/10),
    mkRow "tire3" "DOT-approved, Section Width 267mm to 282mm, UTQG Treadwear rating 40 and less"
      (3/10) (3/10) (3/10) (3/10) (-(10/10)) 99 99,
    mkRow "tire4" "DOT-approved, Section Width 266mm or smaller, UTQG Treadwear rating 100 or greater"
      (9/10) (9/10) (9/10) (9/10) (9/10) (5/10) (5/10),
    mkRow "tire5" "DOT-approved, Section Width 266mm or smaller, UTQG Treadwear rating 41 to 99"
      (6/10) (6/10) (6/10) (6/10) (3/10) (0/10) (0/10),
    mkRow "tire6" "DOT-approved, Section Width 266mm or smaller, UTQG Treadwear rating 40 and less"
      (6/10) (6/10) (6/10) (6/10) (-(7/10)) 99 99,
    mkRow "tire9" "Non-DOT Approved 10.6in (269mm) or greater"
      (-(5/10)) (-(5/10)) (-(5/10)) (-(5/10)) 99 99 99,
    mkRow "tire10" "Non-DOT Tire Size 10.5in (267mm) to 9.6 (244mm)"
      (-(2/10)) (-(2/10)) (-(2/10)) (-(2/10)) 99 99 99,
    mkRow "tire11" "Non-DOT Tire Size 9.5in (241mm) or smaller"
      (1/10) (1/10) (1/10) (1/10) 99 99 99 ]

/-- brakeModifierTable from `modifiers.js`. -/
def brakeModifierTable : List ModifierRow :=
  [ mkRow "brake1" "Non-OEM, modified or relocated brake calipers/brackets or rotor diameter"
      99 99 99 99 99 (-(2/10)) (-(2/10)),
    mkRow "brake2" "Suspension design utilizing upper \"A-arm\" or \"wishbone\" type control arms (front or rear)"
      99 99 99 99 99 (-(7/10)) (-(7/10)),
    mkRow "brake3" "Replace, modify, or remove control arms, camber arms/links, toe arms/links"
      99 99 99 99 99 (-(5/10)) (-(5/10)),
    mkRow "brake4" "Add, replace, or modify a Watts link, Panhard Rod, or Torque Arm"
      99 99 99 99 99 (-(5/10)) (-(5/10)),
    mkRow "brake5" "Non-OEM metallic and/or spherical design replacement suspension bushing modifications on control/camber/toe arms/links, panhard rods, watts links, and torque arms"
      99 99 99 99 99 (-(2/10)) (-(2/10)),
    mkRow "brake6" "Non-OEM shocks/struts with an external reservoir (or piggyback) OR with shaft diameter 40mm or greater"
      99 99 99 99 99 (-(7/10)) (-(7/10)),
    mkRow "brake7" "Increase in track width greater than four (4) inches"
      99 99 99 99 99 (-(7/10)) (-(7/10)) ]

/-- Embedding of `getClassIndex(targetClass)` from `modifiers.js` lines
555-566: the object lookup `classMap[targetClass] || 8` (no stored value
is falsy except none, so a miss yields the default column 8, IT2). -/
def getClassIndex (targetClass : String) : ℕ :=
  if targetClass = "GTU" then 2
  else if targetClass = "GT1" then 3
  else if targetClass = "GT2" then 4
  else if targetClass = "GT3" then 5
  else if targetClass = "GT4" then 6
  else if targetClass = "IT1" then 7
  else if targetClass = "IT2" then 8
  else 8

/-- Cell access `modifierTable[i][classIndex]` of `modifiers.js` line
580: the JS row index `classIndex` (2 through 8) is `vals` position
`classIndex - 2`. -/
def rowCell (row : ModifierRow) (targetClass : String) : ℚ :=
  row.vals.getD (getClassIndex targetClass - 2) 0

/-- Embedding of `getModifierValue(modifierTable, optionId, targetClass)`
from `modifiers.js` lines 575-589: scan for the first row whose id
matches, read its cell at the class column via `rowCell`, and map the
sentinel values to `none` (the JS `null`). -/
def getModifierValue (modifierTable : List ModifierRow) (optionId targetClass : String) :
    Option ℚ :=
  match modifierTable.find? (fun row => row.id == optionId) with
  | some row =>
    let value := rowCell row targetClass
    if 10 ≤ value ∨ value = 99 ∨ value = 44 ∨ value = 33 then none
    else some value
  | none => none

/-- Shape of the `brakeSuspension` field of the form data handed to
`updateCalculations`: the UI normally supplies an array of option ids,
but `calculator.js` lines 264-278 also accept a bare string for
backward compatibility. -/
inductive BrakeInput where
  | arr (ids : List String)
  | str (s : String)
deriving DecidableEq

/-- Form data consumed by `updateCalculations` (`calculator.js` lines
185-195).  `competitionWeight` and `declaredHp` are the `parseFloat`
results of the raw text inputs, with `none` standing for NaN; the
destructured `targetClass` field is never read by the function and is
omitted.  Selection fields are option-id strings, empty when nothing is
selected. -/
structure FormData where
  competitionWeight : Option ℚ
  declaredHp : Option ℚ
  chassis : String
  bodyMods : String
  transmission : String
  drivetrain : String
  tires : String
  brakeSuspension : BrakeInput
deriving DecidableEq

/-- Result record of `updateCalculations` (`calculator.js` lines
197-203). -/
structure CalcResults where
  weightFactor : ℚ
  baseRatio : ℚ
  modificationFactor : ℚ
  modifiedRatio : ℚ
  calculatedClass : String
deriving DecidableEq

/-- One single-selection modifier lookup block of `updateCalculations`
(`calculator.js` lines 225-262, repeated per category): guarded by the
truthiness of the selection and of `classForModifiers`, the looked-up
value is added when it is not null. -/
def singleModContribution (table : List ModifierRow) (sel cls : String) : ℚ :=
  if sel ≠ "" ∧ cls ≠ "" then
    match getModifierValue table sel cls with
    | some v => v
    | none => 0
  else 0

/-- Brake/suspension lookup block of `updateCalculations`
(`calculator.js` lines 264-278): an array input is summed element-wise
when non-empty, a bare non-empty string is looked up once, anything
else contributes 0. -/
def brakeContribution (b : BrakeInput) (cls : String) : ℚ :=
  match b with
  | .arr ids =>
    if ids ≠ [] ∧ cls ≠ "" then
      (ids.map (fun optionId =>
        match getModifierValue brakeModifierTable optionId cls with
        | some v => v
        | none => 0)).sum
    else 0
  | .str s =>
    if s ≠ "" ∧ cls ≠ "" then
      match getModifierValue brakeModifierTable s cls with
      | some v => v
      | none => 0
    else 0

/-- Stage D fixed-point loop of `updateCalculations` (`calculator.js`
lines 285-316), as a fuel-bounded recursion.  Each call executes one
body pass of the JS `while (iterations < maxIterations)` loop with
state `cls` (classForWeightFactor) and `prev` (previousWeightFactor);
`fuel` is the number of further passes the iteration budget still
allows, so the JS initial state `iterations = 0`, `maxIterations = 10`
is `fuel = 9`.  The returned pair is the pass's
`(weightFactor, modifiedRatio)` as stored into the results object. -/
def stageDLoop (w base mf : ℚ) : ℕ → String → Option ℚ → ℚ × ℚ
  | fuel, cls, prev =>
    let wf := calculateWeightFactor w cls
    let mr := base + wf + mf
    let rc := determineClass mr
    let stop : Bool :=
      match prev with
      | some p => decide (|wf - p| < (1/1000)) && decide (rc = cls)
      | none => false
    if stop then (wf, mr)
    else if rc ≠ cls then
      match fuel with
      | 0 => (wf, mr)
      | f + 1 => stageDLoop w base mf f rc (some wf)
    else (wf, mr)

/-- Number of loop-body passes `stageDLoop` executes, with the same
control structure. -/
def stageDCount (w base mf : ℚ) : ℕ → String → Option ℚ → ℕ
  | fuel, cls, prev =>
    let wf := calculateWeightFactor w cls
    let mr := base + wf + mf
    let rc := determineClass mr
    let stop : Bool :=
      match prev with
      | some p => decide (|wf - p| < (1/1000)) && decide (rc = cls)
      | none => false
    if stop then 1
    else if rc ≠ cls then
      match fuel with
      | 0 => 1
      | f + 1 => 1 + stageDCount w base mf f rc (some wf)
    else 1

/-- Embedding of `updateCalculations(formData)` from `calculator.js`
lines 184-322: base-data guard, base ratio, modifier sum keyed by the
class of the base ratio, the Stage D loop seeded with the class of
`baseRatio + modificationFactor`, and the final class read off the last
modified ratio. -/
def updateCalculations (fd : FormData) : CalcResults :=
  match fd.competitionWeight, fd.declaredHp with
  | some weightNum, some hpNum =>
    if 0 < weightNum ∧ 0 < hpNum then
      let baseRatio := calculateBaseRatio weightNum hpNum
      let classForModifiers := determineClass baseRatio
      let modifierSum :=
        singleModContribution chassisModifierTable fd.chassis classForModifiers +
        singleModContribution bodyModifierTable fd.bodyMods classForModifiers +
        singleModContribution transModifierTable fd.transmission classForModifiers +
        singleModContribution dtModifierTable fd.drivetrain classForModifiers +
        singleModContribution tireModifierTable fd.tires classForModifiers +
        brakeContribution fd.brakeSuspension classForModifiers
      let loopOut := stageDLoop weightNum baseRatio modifierSum 9
        (determineClass (baseRatio + modifierSum)) none
      { weightFactor := loopOut.1,
        baseRatio := baseRatio,
        modificationFactor := modifierSum,
        modifiedRatio := loopOut.2,
        calculatedClass := determineClass loopOut.2 }
    else
      { weightFactor := 0, baseRatio := 0, modificationFactor := 0,
        modifiedRatio := 0, calculatedClass := "" }
  | _, _ =>
    { weightFactor := 0, baseRatio := 0, modificationFactor := 0,
      modifiedRatio := 0, calculatedClass := "" }

/-- Number of Stage D loop passes `updateCalculations` executes for a
given form data record (0 when the base-data guard fails and the loop
is never entered). -/
def updateCalcPassCount (fd : FormData) : ℕ :=
  match fd.competitionWeight, fd.declaredHp with
  | some weightNum, some hpNum =>
    if 0 < weightNum ∧ 0 < hpNum then
      let baseRatio := calculateBaseRatio weightNum hpNum
      let classForModifiers := determineClass baseRatio
      let modifierSum :=
        singleModContribution chassisModifierTable fd.chassis classForModifiers +
        singleModContribution bodyModifierTable fd.bodyMods classForModifiers +
        singleModContribution transModifierTable fd.transmission classForModifiers +
        singleModContribution dtModifierTable fd.drivetrain classForModifiers +
        singleModContribution tireModifierTable fd.tires classForModifiers +
        brakeContribution fd.brakeSuspension classForModifiers
      stageDCount weightNum baseRatio modifierSum 9
        (determineClass (baseRatio + modifierSum)) none
    else 0
  | _, _ => 0

/-- Weight-factor function transcribed from the specification's words
(spec section 4.3): the regime-A priority chain for classes GTU, GT1,
GT2, GT3, GT4, the regime-B priority chain for IT1 and IT2, first
matching branch winning in the listed order, and 0 whenever weight ≤ 0
or the class is not one of the seven.  It exists only to be compared
with `calculateWeightFactor`, which is embedded from the code. -/
def specWeightFactor (weight : ℚ) (targetClass : String) : ℚ :=
  if weight ≤ 0 then 0
  else if targetClass = "GTU" ∨ targetClass = "GT1" ∨ targetClass = "GT2" ∨
      targetClass = "GT3" ∨ targetClass = "GT4" then
    if weight < 2200 then -(3/10)
    else if weight < 2600 then -(2/10)
    else if weight < 3000 then -(1/10)
    else if 4050 < weight then (7/10)
    else if 3900 < weight then (6/10)
    else if 3750 < weight then (5/10)
    else if 3600 < weight then (4/10)
    else if 3500 < weight then (3/10)
    else if 3400 < weight then (2/10)
    else if 3300 < weight then (1/10)
    else 0
  else if targetClass = "IT1" ∨ targetClass = "IT2" then
    if weight < 2150 then -(6/10)
    else if weight < 2250 then -(5/10)
    else if weight < 2450 then -(4/10)
    else if weight < 2550 then -(3/10)
    else if weight < 2650 then -(2/10)
    else if weight < 2850 then -(1/10)
    else if 3600 < weight then (4/10)
    else if 3500 < weight then (3/10)
    else if 3400 < weight then (2/10)
    else if 3300 < weight then (1/10)
    else 0
  else 0

/-- Stage C modifier sum against an explicitly supplied class, written
as an independent summation over the six category lookups.  Stated
separately from `updateCalculations` so that pinning the modifier sum
to the base-ratio class can be expressed as a theorem. -/
def modifierSumSpec (fd : FormData) (cls : String) : ℚ :=
  singleModContribution chassisModifierTable fd.chassis cls +
  singleModContribution bodyModifierTable fd.bodyMods cls +
  singleModContribution transModifierTable fd.transmission cls +
  singleModContribution dtModifierTable fd.drivetrain cls +
  singleModContribution tireModifierTable fd.tires cls +
  brakeContribution fd.brakeSuspension cls

/-- Form data of the spec's example scenario 2: weight 4100, hp 300,
no modifier selections. -/
def ex4100 : FormData :=
  ⟨some 4100, some 300, "", "", "", "", "", .arr []⟩

/-- C1 counterexample: the claimed trace asserts that at weight 4100
the regime-B table matches no branch and yields weight factor 0, and
that the run oscillates between GT4 and IT1.  In the code the regime-B
branch `weight > 3600` matches 4100 and yields +(4/10), and the run for
weight 4100, hp 300 with no modifiers settles on class IT1. -/
theorem C1_counterexample :
    calculateWeightFactor 4100 "IT1" ≠ 0 ∧
    calculateWeightFactor 4100 "IT1" = (4/10) ∧
    (updateCalculations ex4100).calculatedClass = "IT1" := by
  refine ⟨by decide, by decide, by decide⟩

/-- C1 (amended): for weight 4100, hp 300, no modifiers, the base ratio
is (1367/100) with provisional class GT4; regime A gives +(7/10), so the first
pass produces modified ratio 14.37 and class IT1; the second pass uses
regime B, whose branch `weight > 3600` matches 4100 and gives +(4/10), so
the modified ratio is (1407/100), the resulting class IT1 equals the class
used, and the loop stops after exactly 2 passes with weight factor (4/10)
and calculated class IT1 — no GT4/IT1 oscillation occurs. -/
theorem C1_thm :
    (updateCalculations ex4100).baseRatio = (1367/100) ∧
    determineClass (1367/100) = "GT4" ∧
    calculateWeightFactor 4100 "GT4" = (7/10) ∧
    determineClass ((1367/100) + (7/10)) = "IT1" ∧
    calculateWeightFactor 4100 "IT1" = (4/10) ∧
    (updateCalculations ex4100).weightFactor = (4/10) ∧
    (updateCalculations ex4100).modifiedRatio = (1407/100) ∧
    (updateCalculations ex4100).calculatedClass = "IT1" ∧
    updateCalcPassCount ex4100 = 2 := by
  refine ⟨by decide, by decide, by decide, by decide, by decide, by decide, by decide,
    by decide, by decide⟩

/-- C9: `getClassIndex` returns the column of every valid class (GTU 2,
GT1 3, GT2 4, GT3 5, GT4 6, IT1 7, IT2 8) and falls back to IT2's
column 8 on any unrecognized class string. -/
theorem C9_thm :
    getClassIndex "GTU" = 2 ∧ getClassIndex "GT1" = 3 ∧ getClassIndex "GT2" = 4 ∧
    getClassIndex "GT3" = 5 ∧ getClassIndex "GT4" = 6 ∧ getClassIndex "IT1" = 7 ∧
    getClassIndex "IT2" = 8 ∧
    ∀ c : String,
      c ∉ (["GTU", "GT1", "GT2", "GT3", "GT4", "IT1", "IT2"] : List String) →
      getClassIndex c = 8 := by
  refine ⟨rfl, rfl, rfl, rfl, rfl, rfl, rfl, ?_⟩
  intro c hc
  unfold getClassIndex
  split_ifs with h1 h2 h3 h4 h5 h6 h7 <;> simp_all

/-- C9 witness: the fallback clause applied to the concrete
unrecognized class string "XYZ". -/
theorem C9_witness : getClassIndex "XYZ" = 8 :=
  C9_thm.2.2.2.2.2.2.2 "XYZ" (by decide)

/-- C7 counterexample: the claim says every non-finite ratio yields the
empty class, but `determineClass(Infinity)` falls through the whole
chain to the final else and yields IT2. -/
theorem C7_counterexample :
    determineClassJS JSNum.posInf = "IT2" ∧ determineClassJS JSNum.posInf ≠ "" := by
  refine ⟨by decide, by decide⟩

/-- C4: `calculateWeightFactor` implements exactly the two priority
chains of the spec, with regime A for GTU through GT4, regime B for IT1
and IT2, and 0 whenever weight ≤ 0 or the class is not one of the
seven. -/
theorem C4_thm (weight : ℚ) (targetClass : String) :
    calculateWeightFactor weight targetClass = specWeightFactor weight targetClass := by
  unfold calculateWeightFactor specWeightFactor
  by_cases hw : weight ≤ 0
  · simp [hw]
  · by_cases hc : targetClass = ""
    · subst hc
      simp [hw]
    · simp [hw, hc]

/-- C7 (amended): `determineClass` is total; a finite ratio ≤ 0, NaN,
or -Infinity yields the empty class, +Infinity falls through the chain
to IT2, and for every positive finite ratio the seven bands are
contiguous and left-inclusive, with determineClass 6 = GT1 and
determineClass 18 = IT2 in particular. -/
theorem C7_thm :
    determineClassJS JSNum.nan = "" ∧
    determineClassJS JSNum.negInf = "" ∧
    determineClassJS JSNum.posInf = "IT2" ∧
    (∀ q : ℚ, determineClassJS (JSNum.num q) = determineClass q) ∧
    (∀ q : ℚ, q ≤ 0 → determineClass q = "") ∧
    (∀ q : ℚ, 0 < q → q < 6 → determineClass q = "GTU") ∧
    (∀ q : ℚ, 6 ≤ q → q < 8 → determineClass q = "GT1") ∧
    (∀ q : ℚ, 8 ≤ q → q < 10 → determineClass q = "GT2") ∧
    (∀ q : ℚ, 10 ≤ q → q < 12 → determineClass q = "GT3") ∧
    (∀ q : ℚ, 12 ≤ q → q < 14 → determineClass q = "GT4") ∧
    (∀ q : ℚ, 14 ≤ q → q < 18 → determineClass q = "IT1") ∧
    (∀ q : ℚ, 18 ≤ q → determineClass q = "IT2") := by
  refine ⟨by decide, by decide, by decide, ?_, ?_, ?_, ?_, ?_, ?_, ?_, ?_, ?_⟩
  · intro q
    unfold determineClassJS determineClass JSNum.falsy JSNum.jle0 JSNum.jlt JSNum.jge
    by_cases h0 : q ≤ 0
    · simp [h0, show q = 0 ∨ q ≤ 0 from Or.inr h0]
    · simp only [Bool.or_eq_true, decide_eq_true_eq, Bool.and_eq_true]
      have h0' : ¬(q = 0) := by intro h; exact h0 (le_of_eq h)
      simp [h0, h0']
  · intro q h1
    unfold determineClass
    rw [if_pos h1]
  · intro q h1 h2
    unfold determineClass
    rw [if_neg (not_le.mpr h1), if_pos h2]
  · intro q h1 h2
    unfold determineClass
    rw [if_neg (by linarith), if_neg (not_lt.mpr h1), if_pos ⟨h1, h2⟩]
  · intro q h1 h2
    unfold determineClass
    rw [if_neg (by linarith), if_neg (by simp; linarith),
      if_neg (fun h => absurd h.2 (not_lt.mpr h1)), if_pos ⟨h1, h2⟩]
  · intro q h1 h2
    unfold determineClass
    rw [if_neg (by linarith), if_neg (by simp; linarith),
      if_neg (fun h => absurd h.2 (by simp; linarith)),
      if_neg (fun h => absurd h.2 (not_lt.mpr h1)), if_pos ⟨h1, h2⟩]
  · intro q h1 h2
    unfold determineClass
    rw [if_neg (by linarith), if_neg (by simp; linarith),
      if_neg (fun h => absurd h.2 (by simp; linarith)),
      if_neg (fun h => absurd h.2 (by simp; linarith)),
      if_neg (fun h => absurd h.2 (not_lt.mpr h1)), if_pos ⟨h1, h2⟩]
  · intro q h1 h2
    unfold determineClass
    rw [if_neg (by linarith), if_neg (by simp; linarith),
      if_neg (fun h => absurd h.2 (by simp; linarith)),
      if_neg (fun h => absurd h.2 (by simp; linarith)),
      if_neg (fun h => absurd h.2 (by simp; linarith)),
      if_neg (fun h => absurd h.2 (not_lt.mpr h1)), if_pos ⟨h1, h2⟩]
  · intro q h1
    unfold determineClass
    rw [if_neg (by linarith), if_neg (by simp; linarith),
      if_neg (fun h => absurd h.2 (by simp; linarith)),
      if_neg (fun h => absurd h.2 (by simp; linarith)),
      if_neg (fun h => absurd h.2 (by simp; linarith)),
      if_neg (fun h => absurd h.2 (by simp; linarith)),
      if_neg (fun h => absurd h.2 (by simp; linarith))]

/-- C7 witness: the band characterization applied at the boundary
ratios 6 and 18 named by the claim. -/
theorem C7_witness : determineClass 6 = "GT1" ∧ determineClass 18 = "IT2" :=
  ⟨C7_thm.2.2.2.2.2.2.1 6 (by norm_num) (by norm_num),
   C7_thm.2.2.2.2.2.2.2.2.2.2.2 18 (by norm_num)⟩

/-- Against the empty class every modifier contribution is guarded off,
so the Stage C sum is 0. -/
theorem modifierSumSpec_empty_class (fd : FormData) : modifierSumSpec fd "" = 0 := by
  unfold modifierSumSpec singleModContribution brakeContribution
  rcases fd.brakeSuspension with ids | s <;> simp

/-- C6: when both inputs parse to positive numbers the base ratio is
weight/hp rounded to two decimals via Math.round; when either input is
missing (NaN) or non-positive, the result has base ratio 0 and an empty
calculated class. -/
theorem C6_thm (fd : FormData) :
    (∀ w hp : ℚ, fd.competitionWeight = some w → fd.declaredHp = some hp →
      0 < w → 0 < hp →
      (updateCalculations fd).baseRatio = (jsRound (w / hp * 100) : ℚ) / 100) ∧
    ((∀ w hp : ℚ, fd.competitionWeight = some w → fd.declaredHp = some hp →
        w ≤ 0 ∨ hp ≤ 0) →
      (updateCalculations fd).baseRatio = 0 ∧
      (updateCalculations fd).calculatedClass = "") := by
  constructor
  · intro w hp hw hhp h0w h0hp
    simp only [updateCalculations, hw, hhp]
    rw [if_pos ⟨h0w, h0hp⟩]
    show calculateBaseRatio w hp = _
    unfold calculateBaseRatio
    rw [if_neg (by push_neg; exact ⟨h0w, h0hp⟩)]
  · intro hdeg
    rcases hcw : fd.competitionWeight with _ | w
    · simp [updateCalculations, hcw]
    · rcases hhp : fd.declaredHp with _ | hp
      · simp [updateCalculations, hcw, hhp]
      · have hnp : w ≤ 0 ∨ hp ≤ 0 := hdeg w hp hcw hhp
        simp only [updateCalculations, hcw, hhp]
        rw [if_neg (by rintro ⟨ha, hb⟩; rcases hnp with h | h <;> linarith)]
        exact ⟨rfl, rfl⟩

/-- C6 witness: the positive branch applied at weight 4100, hp 300. -/
theorem C6_witness : (updateCalculations ex4100).baseRatio = (1367/100 : ℚ) := by
  have h := (C6_thm ex4100).1 4100 300 rfl rfl (by norm_num) (by norm_num)
  rw [h]
  decide

/-- C5: the modification factor returned by `updateCalculations` always
equals the Stage C sum evaluated against the class determined from the
base ratio alone, whatever the final calculated class turns out to
be. -/
theorem C5_thm (fd : FormData) :
    (updateCalculations fd).modificationFactor =
      modifierSumSpec fd (determineClass (updateCalculations fd).baseRatio) := by
  rcases hcw : fd.competitionWeight with _ | w
  · simp only [updateCalculations, hcw]
    rw [show determineClass 0 = "" from by decide, modifierSumSpec_empty_class]
  · rcases hhp : fd.declaredHp with _ | hp
    · simp only [updateCalculations, hcw, hhp]
      rw [show determineClass 0 = "" from by decide, modifierSumSpec_empty_class]
    · by_cases hpos : 0 < w ∧ 0 < hp
      · simp only [updateCalculations, hcw, hhp]
        rw [if_pos hpos]
        rfl
      · simp only [updateCalculations, hcw, hhp]
        rw [if_neg hpos]
        rw [show determineClass 0 = "" from by decide, modifierSumSpec_empty_class]

/-- C8: `getModifierValue` returns `none` exactly when the option id
matches no row, or the first matching row's cell for the class is ≥ 10
or one of the literal sentinels 99, 44, 33; otherwise it returns the
raw cell value, which is below the sentinel threshold. -/
theorem C8_thm (table : List ModifierRow) (optionId targetClass : String) :
    (getModifierValue table optionId targetClass = none ↔
      (∀ row ∈ table, row.id ≠ optionId) ∨
      (∃ row, table.find? (fun r => r.id == optionId) = some row ∧
        (10 ≤ rowCell row targetClass ∨ rowCell row targetClass = 99 ∨
         rowCell row targetClass = 44 ∨ rowCell row targetClass = 33))) ∧
    (∀ v : ℚ, getModifierValue table optionId targetClass = some v →
      ∃ row, table.find? (fun r => r.id == optionId) = some row ∧
        rowCell row targetClass = v ∧ v < 10 ∧ v ≠ 99 ∧ v ≠ 44 ∧ v ≠ 33) := by
  cases hfind : table.find? (fun r => r.id == optionId) with
  | none =>
    have hall : ∀ row ∈ table, row.id ≠ optionId := by
      intro row hr
      have hx := List.find?_eq_none.mp hfind row hr
      simpa using hx
    constructor
    · simp only [getModifierValue, hfind]
      exact iff_of_true (by simp) (Or.inl hall)
    · intro v hv
      simp only [getModifierValue, hfind] at hv
      exact absurd hv (by simp)
  | some row =>
    have hmem : row ∈ table := List.mem_of_find?_eq_some hfind
    have hid : row.id = optionId := by
      have hx := List.find?_some hfind
      simpa using hx
    by_cases hs : 10 ≤ rowCell row targetClass ∨ rowCell row targetClass = 99 ∨
        rowCell row targetClass = 44 ∨ rowCell row targetClass = 33
    · constructor
      · simp only [getModifierValue, hfind, if_pos hs]
        exact iff_of_true (by simp) (Or.inr ⟨row, rfl, hs⟩)
      · intro v hv
        simp only [getModifierValue, hfind, if_pos hs] at hv
        exact absurd hv (by simp)
    · constructor
      · simp only [getModifierValue, hfind, if_neg hs]
        constructor
        · intro h
          exact absurd h (by simp)
        · intro h
          rcases h with hleft | ⟨row2, hr2, hsent⟩
          · exact absurd hid (hleft row hmem)
          · injection hr2 with hr2
            subst hr2
            exact (hs hsent).elim
      · intro v hv
        simp only [getModifierValue, hfind, if_neg hs] at hv
        injection hv with hv
        subst hv
        push_neg at hs
        exact ⟨row, rfl, rfl, hs.1, hs.2.1, hs.2.2.1, hs.2.2.2⟩

/-- C8 witness: the sentinel clause at the brake2 row for class GTU
(cell 99) and the value clause at the brake2 row for class IT1
(cell -0.7). -/
theorem C8_witness : getModifierValue brakeModifierTable "brake2" "GTU" = none :=
  (C8_thm brakeModifierTable "brake2" "GTU").1.mpr
    (Or.inr ⟨mkRow "brake2"
      "Suspension design utilizing upper \"A-arm\" or \"wishbone\" type control arms (front or rear)"
      99 99 99 99 99 (-(7/10)) (-(7/10)), by decide, by decide⟩)

/-- Looking up an option id that matches no row of the brake table
returns `none` whatever the class is; in particular the empty id. -/
theorem getModifierValue_brake_empty_id (cls : String) :
    getModifierValue brakeModifierTable "" cls = none := rfl

/-- A bare-string brake/suspension selection contributes exactly what
the one-element array of the same string contributes, for every
class. -/
theorem brakeContribution_str_eq_arr (s cls : String) :
    brakeContribution (BrakeInput.str s) cls = brakeContribution (BrakeInput.arr [s]) cls := by
  simp only [brakeContribution]
  by_cases hcls : cls = ""
  · simp [hcls]
  · by_cases hs : s = ""
    · subst hs
      simp [hcls, getModifierValue_brake_empty_id cls]
    · simp [hs, hcls]

/-- C10: `updateCalculations` returns the same result whether the
brake/suspension selection is supplied as a bare option-id string or as
the one-element array holding that string. -/
theorem C10_thm (fd : FormData) (s : String) :
    updateCalculations { fd with brakeSuspension := BrakeInput.str s } =
      updateCalculations { fd with brakeSuspension := BrakeInput.arr [s] } := by
  rcases hcw : fd.competitionWeight with _ | w
  · simp [updateCalculations, hcw]
  · rcases hhp : fd.declaredHp with _ | hp
    · simp [updateCalculations, hcw, hhp]
    · simp only [updateCalculations, hcw, hhp]
      by_cases hpos : 0 < w ∧ 0 < hp
      · rw [if_pos hpos, if_pos hpos, brakeContribution_str_eq_arr]
      · rw [if_neg hpos, if_neg hpos]

set_option maxHeartbeats 2000000 in
/-- Every value of `calculateWeightFactor` is an integer number of
tenths: the chains only ever return constants from -0.6 to +0.7 in
steps of 0.1, or 0. -/
theorem calculateWeightFactor_isTenth (w : ℚ) (c : String) :
    ∃ k : ℤ, calculateWeightFactor w c = (k : ℚ) / 10 := by
  unfold calculateWeightFactor
  by_cases h1 : w ≤ 0 ∨ c = ""
  · rw [if_pos h1]
    exact ⟨0, by norm_num⟩
  · rw [if_neg h1]
    by_cases h2 : c = "GTU" ∨ c = "GT1" ∨ c = "GT2" ∨ c = "GT3" ∨ c = "GT4"
    · rw [if_pos h2]
      split_ifs <;>
        first
          | (refine ⟨0, ?_⟩; norm_num; done)
          | (refine ⟨-1, ?_⟩; norm_num; done)
          | (refine ⟨-2, ?_⟩; norm_num; done)
          | (refine ⟨-3, ?_⟩; norm_num; done)
          | (refine ⟨7, ?_⟩; norm_num; done)
          | (refine ⟨6, ?_⟩; norm_num; done)
          | (refine ⟨5, ?_⟩; norm_num; done)
          | (refine ⟨4, ?_⟩; norm_num; done)
          | (refine ⟨3, ?_⟩; norm_num; done)
          | (refine ⟨2, ?_⟩; norm_num; done)
          | (refine ⟨1, ?_⟩; norm_num; done)
    · rw [if_neg h2]
      by_cases h3 : c = "IT1" ∨ c = "IT2"
      · rw [if_pos h3]
        split_ifs <;>
          first
            | (refine ⟨0, ?_⟩; norm_num; done)
            | (refine ⟨-6, ?_⟩; norm_num; done)
            | (refine ⟨-5, ?_⟩; norm_num; done)
            | (refine ⟨-4, ?_⟩; norm_num; done)
            | (refine ⟨-3, ?_⟩; norm_num; done)
            | (refine ⟨-2, ?_⟩; norm_num; done)
            | (refine ⟨-1, ?_⟩; norm_num; done)
            | (refine ⟨4, ?_⟩; norm_num; done)
            | (refine ⟨3, ?_⟩; norm_num; done)
            | (refine ⟨2, ?_⟩; norm_num; done)
            | (refine ⟨1, ?_⟩; norm_num; done)
      · rw [if_neg h3]
        exact ⟨0, by norm_num⟩

/-- Two weight factors within 0.001 of each other are equal, because
distinct weight factors differ by at least 0.1. -/
theorem calculateWeightFactor_near (w : ℚ) (c1 c2 : String)
    (h : |calculateWeightFactor w c1 - calculateWeightFactor w c2| < 1/1000) :
    calculateWeightFactor w c1 = calculateWeightFactor w c2 := by
  obtain ⟨a, ha⟩ := calculateWeightFactor_isTenth w c1
  obtain ⟨b, hb⟩ := calculateWeightFactor_isTenth w c2
  rw [ha, hb] at h ⊢
  rw [div_sub_div_same, abs_div,
    show |(10 : ℚ)| = 10 from abs_of_pos (by norm_num)] at h
  have habs : |(a : ℚ) - b| < 1/100 := by linarith
  have h1 : ((|a - b| : ℤ) : ℚ) < 1 := by
    rw [Int.cast_abs]
    push_cast
    calc |(a : ℚ) - b| < 1/100 := habs
      _ < 1 := by norm_num
  have h2 : |a - b| < 1 := by exact_mod_cast h1
  rw [abs_sub_lt_iff] at h2
  have h3 : a = b := by omega
  rw [h3]

/-- C2: in the Stage D loop an iteration stops (returns its own pass's
weight factor and modified ratio, whatever iteration budget remains)
when the resulting class equals the class used to compute the weight
factor, and also when the newly computed weight factor is within 0.001
of the previous iteration's weight factor; either condition alone
suffices.  The previous weight factor is characterized as it occurs in
a run: it is a value of `calculateWeightFactor` at this weight, and the
current class is the class its modified ratio determined. -/
theorem C2_thm (w base mf : ℚ) (cls : String) (fuel : ℕ) :
    (∀ prev : Option ℚ,
      determineClass (base + calculateWeightFactor w cls + mf) = cls →
      stageDLoop w base mf fuel cls prev =
        (calculateWeightFactor w cls, base + calculateWeightFactor w cls + mf)) ∧
    (∀ wfp : ℚ, (∃ c0 : String, wfp = calculateWeightFactor w c0) →
      cls = determineClass (base + wfp + mf) →
      |calculateWeightFactor w cls - wfp| < 1/1000 →
      stageDLoop w base mf fuel cls (some wfp) =
        (calculateWeightFactor w cls, base + calculateWeightFactor w cls + mf)) := by
  have key : ∀ prev : Option ℚ,
      determineClass (base + calculateWeightFactor w cls + mf) = cls →
      stageDLoop w base mf fuel cls prev =
        (calculateWeightFactor w cls, base + calculateWeightFactor w cls + mf) := by
    intro prev hrc
    rw [stageDLoop.eq_def]
    dsimp only
    rw [hrc]
    split
    · rfl
    · rw [if_neg (by simp)]
  refine ⟨key, ?_⟩
  intro wfp hex hshape hnear
  obtain ⟨c0, hc0⟩ := hex
  have heq : calculateWeightFactor w cls = wfp := by
    subst hc0
    exact calculateWeightFactor_near w cls c0 hnear
  apply key
  rw [heq, ← hshape]

/-- C2 witness: a stop forced by the near-equal weight-factor clause at
weight 3050 (both regimes give factor 0 there), base ratio 14.5, class
IT1, previous factor 0, with no iteration budget left over. -/
theorem C2_witness : stageDLoop 3050 (29/2) 0 0 "IT1" (some 0) = (0, 29/2) := by
  have h := (C2_thm 3050 (29/2) 0 "IT1" 0).2 0
    ⟨"IT1", by decide⟩ (by decide) (by decide)
  rw [h]
  decide

/-- The modified ratio a Stage D loop call returns is always the base
ratio plus the weight factor it returns plus the modification
factor. -/
theorem stageDLoop_snd (w base mf : ℚ) :
    ∀ (fuel : ℕ) (cls : String) (prev : Option ℚ),
      (stageDLoop w base mf fuel cls prev).2 =
        base + (stageDLoop w base mf fuel cls prev).1 + mf := by
  intro fuel
  induction fuel with
  | zero =>
    intro cls prev
    rw [stageDLoop.eq_def]
    dsimp only
    split
    · rfl
    · split
      · rfl
      · rfl
  | succ f ih =>
    intro cls prev
    rw [stageDLoop.eq_def]
    dsimp only
    split
    · rfl
    · split
      · exact ih _ _
      · rfl

/-- The Stage D loop executes at most `fuel + 1` body passes. -/
theorem stageDCount_le (w base mf : ℚ) :
    ∀ (fuel : ℕ) (cls : String) (prev : Option ℚ),
      stageDCount w base mf fuel cls prev ≤ fuel + 1 := by
  intro fuel
  induction fuel with
  | zero =>
    intro cls prev
    rw [stageDCount.eq_def]
    dsimp only
    split
    · omega
    · split
      · omega
      · omega
  | succ f ih =>
    intro cls prev
    rw [stageDCount.eq_def]
    dsimp only
    split
    · omega
    · split
      · have hrec := ih (determineClass (base + calculateWeightFactor w cls + mf))
          (some (calculateWeightFactor w cls))
        omega
      · omega

/-- C3: for every input the Stage D loop runs at most 10 body passes,
and the returned record always carries a consistent final state — the
modified ratio is base ratio + weight factor + modification factor of
the last pass, and the calculated class is the class of that modified
ratio; no error path exists. -/
theorem C3_thm (fd : FormData) :
    updateCalcPassCount fd ≤ 10 ∧
    (updateCalculations fd).modifiedRatio =
      (updateCalculations fd).baseRatio + (updateCalculations fd).weightFactor +
        (updateCalculations fd).modificationFactor ∧
    (updateCalculations fd).calculatedClass =
      determineClass (updateCalculations fd).modifiedRatio := by
  rcases hcw : fd.competitionWeight with _ | w
  · refine ⟨?_, ?_, ?_⟩ <;> simp only [updateCalcPassCount, updateCalculations, hcw] <;> decide
  · rcases hhp : fd.declaredHp with _ | hp
    · refine ⟨?_, ?_, ?_⟩ <;>
        simp only [updateCalcPassCount, updateCalculations, hcw, hhp] <;> decide
    · by_cases hpos : 0 < w ∧ 0 < hp
      · simp only [updateCalcPassCount, updateCalculations, hcw, hhp, if_pos hpos]
        exact ⟨stageDCount_le w _ _ 9 _ _, stageDLoop_snd w _ _ 9 _ _, trivial⟩
      · simp only [updateCalcPassCount, updateCalculations, hcw, hhp, if_neg hpos]
        refine ⟨by omega, by norm_num, by decide⟩

end Wcma
